import Mathlib

/-!
Verification of the energy-cost-analyser repository.

Shallow embedding of the three source modules:
- `src/pricing.py`   (class `PricingManager`): tariff resolution;
- `src/main.py`      (class `MeterDataParser`): billing aggregation;
- `src/aemo_data_downloader.py` (class `AEMODataDownloader`): merge engine.

Conventions used throughout:
- Python `float` values that carry money/energy amounts are modelled as `ℚ`
  (exact arithmetic); overflow/rounding of IEEE floats is not at issue in any
  claim under study.
- Python exceptions (`KeyError`, `TypeError`, `ValueError`) are modelled by
  the `PyRes` result type: a Python function that can raise returns
  `PyRes α`, and an uncaught exception is `PyRes.exc e`.
- Python dicts loaded from JSON are modelled as association lists
  (`List (String × _)`); iteration order of `dict.items()` is the list order,
  which matches CPython's insertion-order guarantee that the source relies
  on for its first-match rate lookup.
-/

/-- Python exception classes that the embedded code can raise. -/
inductive PyErr where
  /-- `KeyError`: dict subscript with an absent key. -/
  | keyError
  /-- `TypeError`: e.g. multiplying a float by `None`. -/
  | typeError
deriving DecidableEq, Repr

/-- Result of running a piece of Python code: a value or an uncaught exception. -/
inductive PyRes (α : Type) where
  | ok (a : α)
  | exc (e : PyErr)
deriving DecidableEq, Repr

/-- A `datetime.datetime` value (naive, second precision, as used by the CSV data). -/
structure DT where
  year : Nat
  month : Nat
  day : Nat
  hour : Nat
  minute : Nat
  second : Nat
deriving DecidableEq, Repr, Ord

/-- A calendar date, the result of Python's `datetime.date()`. -/
structure Date where
  year : Nat
  month : Nat
  day : Nat
deriving DecidableEq, Repr

/-- The date component of a timestamp (`ts.date()` in Python). -/
def DT.dateOf (ts : DT) : Date := ⟨ts.year, ts.month, ts.day⟩

/-- Days elapsed since 1970-01-01 for a proleptic-Gregorian calendar date
(the standard civil-from-days algorithm, as used by Python's `datetime`
ordinal arithmetic).  All inputs of interest have `year ≥ 1`, so every
intermediate division acts on non-negative operands. -/
def daysFromCivil (y m d : Nat) : Int :=
  let yy : Int := if m ≤ 2 then (y : Int) - 1 else (y : Int)
  let era : Int := (if 0 ≤ yy then yy else yy - 399) / 400
  let yoe : Int := yy - era * 400
  let mp : Int := ((m : Int) + 9) % 12
  let doy : Int := (153 * mp + 2) / 5 + (d : Int) - 1
  let doe : Int := yoe * 365 + yoe / 4 - yoe / 100 + doy
  era * 146097 + doe - 719468

/-- Python's `datetime.weekday()`: Monday = 0 … Sunday = 6.
1970-01-01 was a Thursday (weekday 3). -/
def pyWeekday (ts : DT) : Int :=
  (daysFromCivil ts.year ts.month ts.day + 3) % 7

/-- Gregorian leap-year test. -/
def isLeap (y : Nat) : Bool :=
  (y % 4 == 0 && y % 100 != 0) || y % 400 == 0

/-- Number of days in a month. -/
def daysInMonth (y m : Nat) : Nat :=
  if m == 2 then (if isLeap y then 29 else 28)
  else if m == 4 || m == 6 || m == 9 || m == 11 then 30
  else 31

/-- The day after `d`. -/
def nextDay (d : Date) : Date :=
  if d.day < daysInMonth d.year d.month then ⟨d.year, d.month, d.day + 1⟩
  else if d.month < 12 then ⟨d.year, d.month + 1, 1⟩
  else ⟨d.year + 1, 1, 1⟩

/-- `n` consecutive days starting at `d`. -/
def dateList (d : Date) (n : Nat) : List Date :=
  match n with
  | 0 => []
  | n + 1 => d :: dateList (nextDay d) n

/-- `pd.date_range(start=s, end=e, freq='D')`: every calendar day from `s`
to `e` inclusive; empty when `s` is after `e`. -/
def dateRange (s e : Date) : List Date :=
  let ds := daysFromCivil s.year s.month s.day
  let de := daysFromCivil e.year e.month e.day
  if ds ≤ de then dateList s ((de - ds).toNat + 1) else []

/-!
## Tariff configuration (`data/pricing_config.json` as loaded by `PricingManager`)

One vendor maps to a JSON object with keys `periods` (season name → list of
months), `supply_charge`, and one key per season name holding the
weekday/weekend rate tables.  A rate table is an *ordered* mapping from
rate-type name to `{hours, rate, solar_rate?}`; `hours` is a list of
`"start-end"` strings which we model already split into `(start, end)`
pairs of numbers (the split/int conversion in `_is_hour_in_range` is a pure
reformatting of the same data).
-/

/-- One rate-type entry of the configuration: the dict key (`peak`,
`off_peak`, …) together with its `hours`, `rate` and optional `solar_rate`. -/
structure RateEntry where
  name : String
  hours : List (Nat × Nat)
  rate : ℚ
  solar_rate : Option ℚ
deriving DecidableEq, Repr

/-- The weekday/weekend rate tables of one season (both keys are always
present in the configuration; the source indexes them with the computed
`day_type` which is always one of the two). -/
structure SeasonRates where
  weekday : List RateEntry
  weekend : List RateEntry
deriving DecidableEq, Repr

/-- One vendor's configuration object. `supplyCharge` is `none` when the
JSON object has no `supply_charge` key (subscripting it then raises
`KeyError`). -/
structure VendorConfig where
  periods : List (String × List Nat)
  seasons : List (String × SeasonRates)
  supplyCharge : Option ℚ
deriving DecidableEq, Repr

/-- The whole pricing configuration: vendor name → vendor object. -/
def Config := List (String × VendorConfig)

/-- Python dict subscript on a string-keyed dict: first (unique) matching key. -/
def alookup {α : Type} : List (String × α) → String → Option α
  | [], _ => none
  | (k, v) :: rest, key => if k = key then some v else alookup rest key

/-- `PricingManager._is_hour_in_range`: true if `hour` falls in any of the
given `(start, end)` ranges; a range with `start < end` is the half-open
`[start, end)`, otherwise the range wraps past midnight. -/
def is_hour_in_range (hour : Nat) : List (Nat × Nat) → Bool
  | [] => false
  | (s, e) :: rest =>
    if s < e then
      if s ≤ hour ∧ hour < e then true else is_hour_in_range hour rest
    else
      if s ≤ hour ∨ hour < e then true else is_hour_in_range hour rest

/-- The loop body of `PricingManager._get_season`: first season whose month
list contains `month`; Python's fall-through return value is `None`. -/
def seasonLoop : List (String × List Nat) → Nat → Option String
  | [], _ => none
  | (name, months) :: rest, m => if m ∈ months then some name else seasonLoop rest m

/-- `PricingManager._get_season` (including the `self.pricing_config[vendor]`
subscript that can raise `KeyError`). -/
def get_season (cfg : Config) (vendor : String) (ts : DT) : PyRes (Option String) :=
  match alookup cfg vendor with
  | none => .exc .keyError
  | some vc => .ok (seasonLoop vc.periods ts.month)

/-- The `vendor_rates` table selected by `get_rate`/`get_solar_rate`/
`get_rate_type`: all three compute
`self.pricing_config[vendor][season][day_type]` with the identical
`day_type = 'weekend' if timestamp.weekday() >= 5 else 'weekday'`. -/
def dayEntries (sr : SeasonRates) (ts : DT) : List RateEntry :=
  if pyWeekday ts ≥ 5 then sr.weekend else sr.weekday

/-- The rate-lookup loop of `PricingManager.get_rate`: first entry whose
hours contain the hour wins; fall-through returns `0.0`. -/
def rateLoop : List RateEntry → Nat → ℚ
  | [], _ => 0
  | en :: rest, h => if is_hour_in_range h en.hours then en.rate else rateLoop rest h

/-- The loop of `PricingManager.get_solar_rate`: the first matching entry's
`details.get('solar_rate', None)`; fall-through returns `None`. -/
def solarLoop : List RateEntry → Nat → Option ℚ
  | [], _ => none
  | en :: rest, h => if is_hour_in_range h en.hours then en.solar_rate else solarLoop rest h

/-- The loop of `PricingManager.get_rate_type`: the first matching entry's
dict key; fall-through returns `'off_peak'`. -/
def rtLoop : List RateEntry → Nat → String
  | [], _ => "off_peak"
  | en :: rest, h => if is_hour_in_range h en.hours then en.name else rtLoop rest h

/-- `PricingManager.get_rate`.  A season of `None` (no season claims the
month) makes the subsequent `self.pricing_config[vendor][season]` subscript
raise `KeyError`, as does a season name that is not a key of the vendor
object. -/
def get_rate (cfg : Config) (vendor : String) (ts : DT) : PyRes ℚ :=
  match get_season cfg vendor ts with
  | .exc e => .exc e
  | .ok none => .exc .keyError
  | .ok (some s) =>
    match alookup cfg vendor with
    | none => .exc .keyError
    | some vc =>
      match alookup vc.seasons s with
      | none => .exc .keyError
      | some sr => .ok (rateLoop (dayEntries sr ts) ts.hour)

/-- `PricingManager.get_solar_rate`. -/
def get_solar_rate (cfg : Config) (vendor : String) (ts : DT) : PyRes (Option ℚ) :=
  match get_season cfg vendor ts with
  | .exc e => .exc e
  | .ok none => .exc .keyError
  | .ok (some s) =>
    match alookup cfg vendor with
    | none => .exc .keyError
    | some vc =>
      match alookup vc.seasons s with
      | none => .exc .keyError
      | some sr => .ok (solarLoop (dayEntries sr ts) ts.hour)

/-- `PricingManager.get_rate_type`. -/
def get_rate_type (cfg : Config) (vendor : String) (ts : DT) : PyRes String :=
  match get_season cfg vendor ts with
  | .exc e => .exc e
  | .ok none => .exc .keyError
  | .ok (some s) =>
    match alookup cfg vendor with
    | none => .exc .keyError
    | some vc =>
      match alookup vc.seasons s with
      | none => .exc .keyError
      | some sr => .ok (rtLoop (dayEntries sr ts) ts.hour)

/-- `PricingManager.get_supply_charge`:
`self.pricing_config[vendor]['supply_charge']`, raising `KeyError` when the
vendor or the `supply_charge` key is absent. -/
def get_supply_charge (cfg : Config) (vendor : String) : PyRes ℚ :=
  match alookup cfg vendor with
  | none => .exc .keyError
  | some vc =>
    match vc.supplyCharge with
    | none => .exc .keyError
    | some q => .ok q

/-!
## Billing aggregation (`src/main.py`, class `MeterDataParser`)

`self.df` is the canonical CSV loaded with parsed dates; the billing methods
only touch the columns `RateTypeDescription`, `StartDate` and
`ProfileReadValue`, so a reading is modelled by those three fields.
-/

/-- One row of `self.df` as consumed by the billing methods. -/
structure Reading where
  rateTypeDescription : String
  startDate : DT
  value : ℚ
deriving DecidableEq, Repr

/-- `self.df[self.df['StartDate'].dt.date == date.date()]`. -/
def readingsOn (df : List Reading) (d : Date) : List Reading :=
  df.filter (fun r => decide (r.startDate.dateOf = d))

/-- The row loop of `MeterDataParser.calculate_cost`: accumulate
`value * rate` over the `Usage` rows. -/
def calcCostRows (cfg : Config) (v : String) : List Reading → ℚ → PyRes ℚ
  | [], acc => .ok acc
  | r :: rest, acc =>
    if r.rateTypeDescription = "Usage" then
      match get_rate cfg v r.startDate with
      | .exc e => .exc e
      | .ok rate => calcCostRows cfg v rest (acc + r.value * rate)
    else calcCostRows cfg v rest acc

/-- `MeterDataParser.calculate_cost`. -/
def calculate_cost (cfg : Config) (df : List Reading) (d : Date) (v : String) : PyRes ℚ :=
  calcCostRows cfg v (readingsOn df d) 0

/-- The row loop of `MeterDataParser.calculate_solar_feedin`.  For a `Solar`
row the source computes `row['ProfileReadValue'] * rate` where `rate` comes
from `get_solar_rate` and may be `None`; multiplying a float by `None`
raises `TypeError`. -/
def calcSolarRows (cfg : Config) (v : String) : List Reading → ℚ → PyRes ℚ
  | [], acc => .ok acc
  | r :: rest, acc =>
    if r.rateTypeDescription = "Solar" then
      match get_solar_rate cfg v r.startDate with
      | .exc e => .exc e
      | .ok none => .exc .typeError
      | .ok (some rate) => calcSolarRows cfg v rest (acc + r.value * rate)
    else calcSolarRows cfg v rest acc

/-- `MeterDataParser.calculate_solar_feedin`. -/
def calculate_solar_feedin (cfg : Config) (df : List Reading) (d : Date) (v : String) : PyRes ℚ :=
  calcSolarRows cfg v (readingsOn df d) 0

/-- The day loop of `MeterDataParser.calculate_cost_range`, carrying the
running `(total_cost, total_solar, total_supply_charges, total_days)`. -/
def crDays (cfg : Config) (v : String) (df : List Reading) :
    List Date → ℚ → ℚ → ℚ → Nat → PyRes (ℚ × ℚ × ℚ × Nat)
  | [], cost, solar, supply, n => .ok (cost, solar, supply, n)
  | d :: ds, cost, solar, supply, n =>
    match calculate_cost cfg df d v with
    | .exc e => .exc e
    | .ok u =>
      match calculate_solar_feedin cfg df d v with
      | .exc e => .exc e
      | .ok s =>
        match get_supply_charge cfg v with
        | .exc e => .exc e
        | .ok sc => crDays cfg v df ds (cost + u) (solar + s) (supply + sc) (n + 1)

/-- The range totals returned by `calculate_cost_range` (the per-day maps
are not needed by any claim). -/
structure CostRange where
  totalUsageCost : ℚ
  totalSolarCredit : ℚ
  totalSupplyCharges : ℚ
  netCost : ℚ
  totalDays : Nat
deriving DecidableEq, Repr

/-- `MeterDataParser.calculate_cost_range`:
`net_cost = total_cost - total_solar + total_supply_charges`. -/
def calculate_cost_range (cfg : Config) (df : List Reading) (s e : Date) (v : String) :
    PyRes CostRange :=
  match crDays cfg v df (dateRange s e) 0 0 0 0 with
  | .exc er => .exc er
  | .ok (c, so, su, n) => .ok ⟨c, so, su, c - so + su, n⟩

/-- A `{kwh, cost}` bucket of `usage_breakdown`. -/
structure Bucket where
  kwh : ℚ
  cost : ℚ
deriving DecidableEq, Repr

/-- The `solar` bucket `{kwh, credit}` of `usage_breakdown`. -/
structure SBucket where
  kwh : ℚ
  credit : ℚ
deriving DecidableEq, Repr

/-- The `usage_breakdown` dict of `calculate_detailed_breakdown`. -/
structure BD where
  peak : Bucket
  off_peak : Bucket
  shoulder : Bucket
  solar : SBucket
deriving DecidableEq, Repr

/-- The summed cost of the three non-solar buckets. -/
def bdCost (bd : BD) : ℚ := bd.peak.cost + bd.off_peak.cost + bd.shoulder.cost

/-- The summed kWh of the three non-solar buckets. -/
def bdKwh (bd : BD) : ℚ := bd.peak.kwh + bd.off_peak.kwh + bd.shoulder.kwh

/-- The per-row update of `calculate_detailed_breakdown`.  For a `Usage` row,
`usage_breakdown[rate_type]` raises `KeyError` when `rate_type` is none of
the four dict keys; when `rate_type = 'solar'` the subsequent `['cost']`
subscript on the `{kwh, credit}` bucket raises `KeyError` as well, so any
label outside peak/off_peak/shoulder aborts the call.  For a `Solar` row an
absent solar rate raises `TypeError` exactly as in `calculate_solar_feedin`. -/
def bdRow (cfg : Config) (v : String) (r : Reading) (bd : BD) : PyRes BD :=
  if r.rateTypeDescription = "Usage" then
    match get_rate cfg v r.startDate with
    | .exc e => .exc e
    | .ok rate =>
      match get_rate_type cfg v r.startDate with
      | .exc e => .exc e
      | .ok rt =>
        if rt = "peak" then
          .ok { bd with peak := ⟨bd.peak.kwh + r.value, bd.peak.cost + r.value * rate⟩ }
        else if rt = "off_peak" then
          .ok { bd with off_peak := ⟨bd.off_peak.kwh + r.value, bd.off_peak.cost + r.value * rate⟩ }
        else if rt = "shoulder" then
          .ok { bd with shoulder := ⟨bd.shoulder.kwh + r.value, bd.shoulder.cost + r.value * rate⟩ }
        else .exc .keyError
  else if r.rateTypeDescription = "Solar" then
    match get_solar_rate cfg v r.startDate with
    | .exc e => .exc e
    | .ok none => .exc .typeError
    | .ok (some sr) =>
      .ok { bd with solar := ⟨bd.solar.kwh + r.value, bd.solar.credit + r.value * sr⟩ }
  else .ok bd

/-- The row loop of `calculate_detailed_breakdown` over one day's readings. -/
def bdRows (cfg : Config) (v : String) : List Reading → BD → PyRes BD
  | [], bd => .ok bd
  | r :: rest, bd =>
    match bdRow cfg v r bd with
    | .exc e => .exc e
    | .ok bd2 => bdRows cfg v rest bd2

/-- The day loop of `calculate_detailed_breakdown`, carrying the breakdown,
`total_supply_charges` and `total_days`. -/
def bdDays (cfg : Config) (v : String) (df : List Reading) :
    List Date → BD → ℚ → Nat → PyRes (BD × ℚ × Nat)
  | [], bd, supply, n => .ok (bd, supply, n)
  | d :: ds, bd, supply, n =>
    match get_supply_charge cfg v with
    | .exc e => .exc e
    | .ok sc =>
      match bdRows cfg v (readingsOn df d) bd with
      | .exc e => .exc e
      | .ok bd2 => bdDays cfg v df ds bd2 (supply + sc) (n + 1)

/-- The result record of `calculate_detailed_breakdown`.  `totalUsage` and
`totalCost` sum the three non-solar buckets (the source's
`period != usage_breakdown['solar']` comparison excludes exactly the solar
bucket: its key set `{kwh, credit}` differs from the `{kwh, cost}` buckets,
so the dict-value comparison never identifies them). -/
structure Breakdown where
  breakdown : BD
  totalUsage : ℚ
  totalCost : ℚ
  totalSupplyCharges : ℚ
  subTotalCost : ℚ
  netCost : ℚ
  totalDays : Nat
deriving DecidableEq, Repr

/-- `MeterDataParser.calculate_detailed_breakdown`. -/
def calculate_detailed_breakdown (cfg : Config) (df : List Reading) (s e : Date) (v : String) :
    PyRes Breakdown :=
  match bdDays cfg v df (dateRange s e) ⟨⟨0, 0⟩, ⟨0, 0⟩, ⟨0, 0⟩, ⟨0, 0⟩⟩ 0 0 with
  | .exc er => .exc er
  | .ok (bd, supply, n) =>
    let totalUsage := bd.peak.kwh + bd.off_peak.kwh + bd.shoulder.kwh
    let totalCost := bd.peak.cost + bd.off_peak.cost + bd.shoulder.cost
    .ok ⟨bd, totalUsage, totalCost, supply, totalCost + supply,
         totalCost + supply - bd.solar.credit, n⟩

/-- Spec-side: total kWh of the `Usage` readings in a row list. -/
def usageKwhRows : List Reading → ℚ
  | [] => 0
  | r :: rest => (if r.rateTypeDescription = "Usage" then r.value else 0) + usageKwhRows rest

/-- Spec-side: total `Usage` kWh accumulated day by day over a day list. -/
def sumUsageDays (df : List Reading) : List Date → ℚ
  | [] => 0
  | d :: ds => usageKwhRows (readingsOn df d) + sumUsageDays df ds

/-- Spec-side: total `Usage` kWh of the queried date range. -/
def totalUsageKwh (df : List Reading) (s e : Date) : ℚ :=
  sumUsageDays df (dateRange s e)

/-!
## Merge engine (`src/aemo_data_downloader.py`, `AEMODataDownloader._append_to_csv`)

The persisted CSV holds `StartDate`/`EndDate` as text.  `_append_to_csv`
re-parses them with the fixed format `%d/%m/%Y %H:%M:%S` and, after the
merge, writes the combined frame back with `DataFrame.to_csv`, which renders
`Timestamp` values in pandas' default ISO form `YYYY-MM-DD HH:MM:SS`.  A
date-bearing cell is therefore modelled as either a string (tagged with the
textual format it is rendered in, which determines whether the fixed-format
parse accepts it) or an in-memory `Timestamp`.
-/

/-- Textual format of a serialized date cell: the project's
`%d/%m/%Y %H:%M:%S` or pandas' default ISO rendering of a `Timestamp`. -/
inductive DFmt where
  | dmy
  | iso
deriving DecidableEq, Repr

/-- A date string: its format together with the instant it denotes.  Both
formats render distinct instants distinctly, and neither format's output is
parseable under the other, so this pair is a faithful model of the string. -/
structure DateStr where
  fmt : DFmt
  dt : DT
deriving DecidableEq, Repr

/-- A pandas cell of a date column: still a string, or already a `Timestamp`
(after a `pd.to_datetime` column assignment). -/
inductive Cell where
  | s (v : DateStr)
  | ts (v : DT)
deriving DecidableEq, Repr

/-- The instant a cell denotes, independently of its representation. -/
def cellDT : Cell → DT
  | .s v => v.dt
  | .ts v => v

/-- `pd.to_datetime(col, format='%d/%m/%Y %H:%M:%S')` on one cell:
`Timestamp` values pass through unchanged, `%d/%m/%Y` strings parse, and an
ISO-formatted string raises `ValueError` (modelled as `none`). -/
def parseCell : Cell → Option DT
  | .ts v => some v
  | .s ⟨.dmy, dt⟩ => some dt
  | .s ⟨.iso, _⟩ => none

/-- `DataFrame.to_csv` rendering of one date cell: a `Timestamp` is written
in pandas' default ISO form, a string is written verbatim. -/
def writeCell : Cell → Cell
  | .ts v => .s ⟨.iso, v⟩
  | .s v => .s v

/-- One row of the canonical CSV / of a merged DataFrame, restricted to the
columns the merge logic touches (`NMI`, `RegisterCode`,
`RateTypeDescription`, `StartDate`, `EndDate`, `ProfileReadValue`,
`QualityFlag`). -/
structure FRow where
  nmi : String
  registerCode : String
  rateType : String
  startDate : Cell
  endDate : Cell
  value : ℚ
  quality : String
deriving DecidableEq, Repr

/-- The semantic content of a row: the MeterReading of the spec's data
model, with the dates as instants (independent of their textual format). -/
structure MeterReading where
  nmi : String
  registerCode : String
  rateType : String
  start : DT
  finish : DT
  value : ℚ
  quality : String
deriving DecidableEq, Repr

/-- Project a stored row to the MeterReading it denotes. -/
def toMeter (r : FRow) : MeterReading :=
  ⟨r.nmi, r.registerCode, r.rateType, cellDT r.startDate, cellDT r.endDate, r.value, r.quality⟩

/-- Zero-pad a number to two digits (`%m`, `%d`, `%H`, `%M`). -/
def pad2 (n : Nat) : String :=
  if n < 10 then "0" ++ toString n else toString n

/-- Zero-pad a number to four digits (`%Y`). -/
def pad4 (n : Nat) : String :=
  if n < 10 then "000" ++ toString n
  else if n < 100 then "00" ++ toString n
  else if n < 1000 then "0" ++ toString n
  else toString n

/-- `Timestamp.strftime('%Y%m%d%H%M')`: the minute-truncated key component. -/
def fmtMin (dt : DT) : String :=
  pad4 dt.year ++ pad2 dt.month ++ pad2 dt.day ++ pad2 dt.hour ++ pad2 dt.minute

/-- The `_key` column: `NMI + '_' + RegisterCode + '_' + startTime-to-minute`. -/
def keyOf (nmi reg : String) (dt : DT) : String :=
  nmi ++ "_" ++ reg ++ "_" ++ fmtMin dt

/-- The identity key of a row, computed from the instant its `StartDate`
denotes (for an in-memory parsed row this is exactly the source's `_key`). -/
def rowKey (r : FRow) : String :=
  keyOf r.nmi r.registerCode (cellDT r.startDate)

/-- Boolean membership in a string list (`Series.isin`). -/
def memS (s : String) : List String → Bool
  | [] => false
  | x :: xs => if x = s then true else memS s xs

/-- Parse one stored row's two date columns
(the `pd.to_datetime(..., format=...)` column assignments): the parsed row
holds `Timestamp` cells; a format mismatch raises `ValueError`. -/
def internRow (r : FRow) : Option FRow :=
  match parseCell r.startDate, parseCell r.endDate with
  | some a, some b => some { r with startDate := .ts a, endDate := .ts b }
  | _, _ => none

/-- Parse every stored row; any failure aborts the whole read (pandas parses
the column as a unit). -/
def parseRows : List FRow → Option (List FRow)
  | [] => some []
  | r :: rest =>
    match internRow r, parseRows rest with
    | some r2, some l => some (r2 :: l)
    | _, _ => none

/-- `new_data['StartDate_dt'] = pd.to_datetime(new_data['StartDate'], ...)`:
each incoming row paired with its parsed start instant. -/
def newStartDts : List FRow → Option (List (FRow × DT))
  | [] => some []
  | r :: rest =>
    match parseCell r.startDate, newStartDts rest with
    | some a, some l => some ((r, a) :: l)
    | _, _ => none

/-- Chronological order on instants (lexicographic on the fields). -/
def dtLE (a b : DT) : Bool :=
  match compare a b with
  | .gt => false
  | _ => true

/-- The `sort_values(['NMI', 'RegisterCode', 'StartDate_dt'])` comparison. -/
def rowLE (a b : FRow) : Bool :=
  match compare a.nmi b.nmi with
  | .lt => true
  | .gt => false
  | .eq =>
    match compare a.registerCode b.registerCode with
    | .lt => true
    | .gt => false
    | .eq => dtLE (cellDT a.startDate) (cellDT b.startDate)

/-- Insert into a sorted list. -/
def insertLE {α : Type} (le : α → α → Bool) (x : α) : List α → List α
  | [] => [x]
  | y :: ys => if le x y then x :: y :: ys else y :: insertLE le x ys

/-- Insertion sort (a deterministic refinement of `sort_values` ascending). -/
def isortLE {α : Type} (le : α → α → Bool) : List α → List α
  | [] => []
  | x :: xs => insertLE le x (isortLE le xs)

/-- `DataFrame.to_csv` rendering of one row. -/
def writeRow (r : FRow) : FRow :=
  { r with startDate := writeCell r.startDate, endDate := writeCell r.endDate }

/-- Result of `_append_to_csv`: the canonical file afterwards (`none` =
still missing), the returned success flag, and the number of records the
merge actually appended (the count in the success message). -/
structure MergeResult where
  file : Option (List FRow)
  ok : Bool
  accepted : Nat
deriving DecidableEq, Repr

/-- The tail of `_append_to_csv`: parse the combined frame's `StartDate`
for sorting, sort, and write the file in place.  `wf` is the write-failure
oracle for the `to_csv` call: `none` means the write completes, `some k`
means it raises after `k` rows have reached the (truncated-in-place) file.
On any exception the function reports failure; whatever the failed write
left on disk stays there. -/
def sortAndWrite (orig : Option (List FRow)) (combined : List FRow) (acc : Nat)
    (wf : Option Nat) : MergeResult :=
  if combined.all (fun r => (parseCell r.startDate).isSome) then
    let out := (isortLE rowLE combined).map writeRow
    match wf with
    | none => ⟨some out, true, acc⟩
    | some k => ⟨some (out.take k), false, 0⟩
  else ⟨orig, false, 0⟩

/-- The duplicate-removal step of `_append_to_csv`:
`new_data = new_data[~new_data['_key'].isin(existing_data['_key'])]`, with
the `_key` columns built from `NMI`, `RegisterCode` and the parsed start
instants. -/
def dedupFresh (existing : List FRow) (pairs : List (FRow × DT)) : List (FRow × DT) :=
  pairs.filter (fun p => !(memS (keyOf p.1.nmi p.1.registerCode p.2) (existing.map rowKey)))

/-- `AEMODataDownloader._append_to_csv`.  `file` is the canonical CSV
(`none` when `self.csv_file_path.exists()` is false), `newData` the incoming
batch, `wf` the write-failure oracle.  Every exception is caught by the
method's `except` clause, which returns `(False, message)`. -/
def appendToCsv (file : Option (List FRow)) (newData : List FRow) (wf : Option Nat) :
    MergeResult :=
  match file with
  | some rows =>
    match parseRows rows with
    | none => ⟨some rows, false, 0⟩
    | some existing =>
      match newStartDts newData with
      | none => ⟨some rows, false, 0⟩
      | some pairs =>
        if (dedupFresh existing pairs).isEmpty then ⟨some rows, true, 0⟩
        else
          sortAndWrite (some rows) (existing ++ (dedupFresh existing pairs).map Prod.fst)
            (dedupFresh existing pairs).length wf
  | none => sortAndWrite none newData newData.length wf

/-- Spec-side: the incoming rows that survive deduplication against the
stored rows — those whose identity key is not already present. -/
def specFresh (rows newData : List FRow) : List FRow :=
  newData.filter (fun n => !(memS (rowKey n) (rows.map rowKey)))

/-!
## Concrete instances used by witnesses and counterexamples
-/

/-- 2021-11-04 00:00:00, a timestamp from the repository's sample data. -/
def mdtA : DT := ⟨2021, 11, 4, 0, 0, 0⟩

/-- 2021-11-04 00:29:59. -/
def mdtA2 : DT := ⟨2021, 11, 4, 0, 29, 59⟩

/-- 2021-11-04 00:30:00. -/
def mdtB : DT := ⟨2021, 11, 4, 0, 30, 0⟩

/-- 2021-11-04 00:59:59. -/
def mdtB2 : DT := ⟨2021, 11, 4, 0, 59, 59⟩

/-- A stored reading, persisted in the project's `%d/%m/%Y` text format. -/
def rowE : FRow := ⟨"N1", "R1", "Usage", .s ⟨.dmy, mdtA⟩, .s ⟨.dmy, mdtA2⟩, 1, "A"⟩

/-- An incoming reading for the following half-hour interval (fresh key). -/
def rowN : FRow := ⟨"N1", "R1", "Usage", .s ⟨.dmy, mdtB⟩, .s ⟨.dmy, mdtB2⟩, 2, "A"⟩

/-- An incoming reading with the same identity key as `rowE` but a
different value. -/
def rowNdup : FRow := ⟨"N1", "R1", "Usage", .s ⟨.dmy, mdtA⟩, .s ⟨.dmy, mdtA2⟩, 99, "A"⟩

/-- A second batch reading sharing `rowNdup`'s identity key with yet
another value. -/
def rowNdupB : FRow := ⟨"N1", "R1", "Usage", .s ⟨.dmy, mdtA⟩, .s ⟨.dmy, mdtA2⟩, 50, "A"⟩

/-- First merge of the batch `[rowN]` into a store already holding `rowE`. -/
def mergeRun1 : MergeResult := appendToCsv (some [rowE]) [rowN] none

/-- Second merge of the identical batch into the file the first merge wrote. -/
def mergeRun2 : MergeResult := appendToCsv mergeRun1.file [rowN] none

/-- An all-day rate entry with a solar rate. -/
def entAll : RateEntry := ⟨"peak", [(0, 24)], 2, some 1⟩

/-- An all-day rate entry without a `solar_rate` key. -/
def entNoSolar : RateEntry := ⟨"peak", [(0, 24)], 2, none⟩

/-- A business-hours rate entry (`9-17`). -/
def entDay : RateEntry := ⟨"peak", [(9, 17)], 2, some 1⟩

/-- The all-year season map used by the witness configurations. -/
def periodsAll : List (String × List Nat) :=
  [("all", [1, 2, 3, 4, 5, 6, 7, 8, 9, 10, 11, 12])]

/-- Season rates using `entAll` on both day types. -/
def srW : SeasonRates := ⟨[entAll], [entAll]⟩

/-- Season rates using `entNoSolar` on both day types. -/
def srNoSolar : SeasonRates := ⟨[entNoSolar], [entNoSolar]⟩

/-- Season rates using `entDay` on both day types. -/
def srDay : SeasonRates := ⟨[entDay], [entDay]⟩

/-- A well-formed vendor covering every month and hour. -/
def vcW : VendorConfig := ⟨periodsAll, [("all", srW)], some 1⟩

/-- Like `vcW` but the matching entry carries no solar rate. -/
def vcNoSolar : VendorConfig := ⟨periodsAll, [("all", srNoSolar)], some 1⟩

/-- Like `vcW` but rates only cover hours 9–17. -/
def vcDay : VendorConfig := ⟨periodsAll, [("all", srDay)], some 1⟩

/-- A vendor whose only season claims January alone. -/
def vcJan : VendorConfig := ⟨[("summer", [1])], [], none⟩

/-- A well-formed single-vendor configuration covering every month and hour. -/
def cfgW : Config := [("v", vcW)]

/-- Like `cfgW` but the matching entry carries no solar rate. -/
def cfgNoSolar : Config := [("v", vcNoSolar)]

/-- Like `cfgW` but rates only cover hours 9–17. -/
def cfgDay : Config := [("v", vcDay)]

/-- A configuration holding only the vendor `vcJan`. -/
def cfgJan : Config := [("a", vcJan)]

/-- The query day 2021-11-04 used by billing witnesses. -/
def dayW : Date := ⟨2021, 11, 4⟩

/-- A `Usage` reading of 3 kWh at 10:00 on the query day. -/
def rdU : Reading := ⟨"Usage", ⟨2021, 11, 4, 10, 0, 0⟩, 3⟩

/-- A `Solar` reading of 2 kWh at 12:00 on the query day. -/
def rdS : Reading := ⟨"Solar", ⟨2021, 11, 4, 12, 0, 0⟩, 2⟩

/-- The two-reading dataset used by billing witnesses. -/
def dfW : List Reading := [rdU, rdS]

/-- The breakdown `calculate_detailed_breakdown` produces for `cfgW`/`dfW`
on `dayW`: 3 kWh at rate 2 in `peak`, 2 kWh solar at rate 1, one supply
charge of 1. -/
def bW : Breakdown := ⟨⟨⟨3, 6⟩, ⟨0, 0⟩, ⟨0, 0⟩, ⟨2, 2⟩⟩, 3, 6, 1, 7, 5, 1⟩

/-- The range totals `calculate_cost_range` produces for the same inputs. -/
def cW : CostRange := ⟨6, 2, 1, 5, 1⟩

/-- A timestamp at 20:00 (outside `cfgDay`'s hour coverage). -/
def tsEve : DT := ⟨2021, 11, 4, 20, 0, 0⟩

/-- A timestamp at 10:00 (inside every witness configuration's coverage). -/
def tsMorn : DT := ⟨2021, 11, 4, 10, 0, 0⟩

/-- A February timestamp (no season of `cfgJan` claims February). -/
def tsFeb : DT := ⟨2021, 2, 4, 10, 0, 0⟩

/-!
## Helper lemmas
-/

/-- If no months list of the periods map contains the month, the season
loop falls through. -/
theorem seasonLoop_eq_none (periods : List (String × List Nat)) (m : Nat)
    (h : ∀ p ∈ periods, m ∉ p.2) : seasonLoop periods m = none := by
  induction periods with
  | nil => rfl
  | cons p rest ih =>
    obtain ⟨name, months⟩ := p
    have hm : m ∉ months := h _ (List.mem_cons_self _ _)
    simp only [seasonLoop, if_neg hm]
    exact ih fun q hq => h q (List.mem_cons_of_mem _ hq)

/-- The rate loop falls through to `0.0` when no entry matches. -/
theorem rateLoop_no_match (l : List RateEntry) (h : Nat)
    (hn : ∀ en ∈ l, is_hour_in_range h en.hours = false) : rateLoop l h = 0 := by
  induction l with
  | nil => rfl
  | cons a t ih =>
    simp only [rateLoop, hn a (List.mem_cons_self _ _), if_neg Bool.false_ne_true]
    exact ih fun en he => hn en (List.mem_cons_of_mem _ he)

/-- The solar-rate loop falls through to `None` when no entry matches. -/
theorem solarLoop_no_match (l : List RateEntry) (h : Nat)
    (hn : ∀ en ∈ l, is_hour_in_range h en.hours = false) : solarLoop l h = none := by
  induction l with
  | nil => rfl
  | cons a t ih =>
    simp only [solarLoop, hn a (List.mem_cons_self _ _), if_neg Bool.false_ne_true]
    exact ih fun en he => hn en (List.mem_cons_of_mem _ he)

/-- The rate-type loop falls through to `'off_peak'` when no entry matches. -/
theorem rtLoop_no_match (l : List RateEntry) (h : Nat)
    (hn : ∀ en ∈ l, is_hour_in_range h en.hours = false) : rtLoop l h = "off_peak" := by
  induction l with
  | nil => rfl
  | cons a t ih =>
    simp only [rtLoop, hn a (List.mem_cons_self _ _), if_neg Bool.false_ne_true]
    exact ih fun en he => hn en (List.mem_cons_of_mem _ he)

/-- The rate loop returns the first matching entry's rate. -/
theorem rateLoop_find (l : List RateEntry) (h : Nat) (en : RateEntry)
    (hf : l.find? (fun x => is_hour_in_range h x.hours) = some en) :
    rateLoop l h = en.rate := by
  induction l with
  | nil => simp at hf
  | cons a t ih =>
    cases hm : is_hour_in_range h a.hours with
    | true =>
      simp only [List.find?, hm] at hf
      cases hf
      simp [rateLoop, hm]
    | false =>
      simp only [List.find?, hm] at hf
      simp only [rateLoop, hm, Bool.false_eq_true, if_false]
      exact ih hf

/-- The solar-rate loop returns the first matching entry's solar rate. -/
theorem solarLoop_find (l : List RateEntry) (h : Nat) (en : RateEntry)
    (hf : l.find? (fun x => is_hour_in_range h x.hours) = some en) :
    solarLoop l h = en.solar_rate := by
  induction l with
  | nil => simp at hf
  | cons a t ih =>
    cases hm : is_hour_in_range h a.hours with
    | true =>
      simp only [List.find?, hm] at hf
      cases hf
      simp [solarLoop, hm]
    | false =>
      simp only [List.find?, hm] at hf
      simp only [solarLoop, hm, Bool.false_eq_true, if_false]
      exact ih hf

/-- The rate-type loop returns the first matching entry's dict key. -/
theorem rtLoop_find (l : List RateEntry) (h : Nat) (en : RateEntry)
    (hf : l.find? (fun x => is_hour_in_range h x.hours) = some en) :
    rtLoop l h = en.name := by
  induction l with
  | nil => simp at hf
  | cons a t ih =>
    cases hm : is_hour_in_range h a.hours with
    | true =>
      simp only [List.find?, hm] at hf
      cases hf
      simp [rtLoop, hm]
    | false =>
      simp only [List.find?, hm] at hf
      simp only [rtLoop, hm, Bool.false_eq_true, if_false]
      exact ih hf

/-!
## Claim theorems
-/

/-- C7: for every hour and every configured hour range, a `start-end` range
with `start < end` contains the hour iff `start ≤ h < end`; with
`start ≥ end` it wraps past midnight and contains the hour iff
`h ≥ start ∨ h < end`; in particular `22-8` matches exactly hours
22, 23, 0–7 and `9-17` matches exactly hours 9–16. -/
theorem c7_hour_range_containment (s e h : Nat) :
    (s < e → (is_hour_in_range h [(s, e)] = true ↔ (s ≤ h ∧ h < e)))
    ∧ (e ≤ s → (is_hour_in_range h [(s, e)] = true ↔ (s ≤ h ∨ h < e)))
    ∧ (h < 24 → (is_hour_in_range h [(22, 8)] = true ↔ (h = 22 ∨ h = 23 ∨ h < 8)))
    ∧ (is_hour_in_range h [(9, 17)] = true ↔ (9 ≤ h ∧ h < 17)) := by
  refine ⟨fun hlt => ?_, fun hge => ?_, fun h24 => ?_, ?_⟩ <;>
    simp only [is_hour_in_range] <;> split_ifs <;> simp <;> omega

/-- Witness for C7 at concrete inputs: hour 10 is in `9-17` and hour 23 is
in the wrapped range `22-8`. -/
theorem c7_hour_range_containment_witness :
    (is_hour_in_range 10 [(9, 17)] = true ↔ (9 ≤ 10 ∧ 10 < 17))
    ∧ (is_hour_in_range 23 [(22, 8)] = true ↔ (23 = 22 ∨ 23 = 23 ∨ 23 < 8)) :=
  ⟨(c7_hour_range_containment 9 17 10).1 (by decide),
   (c7_hour_range_containment 22 8 23).2.2.1 (by decide)⟩

/-- C9: when the vendor, season and day type resolve but no configured
rate-type entry's hour ranges contain the hour, `get_rate` returns `0.0`
without raising, `get_rate_type` returns the fallback label `'off_peak'`,
and `get_solar_rate` returns `None`. -/
theorem c9_no_match_fallbacks (cfg : Config) (v : String) (ts : DT)
    (vc : VendorConfig) (s : String) (sr : SeasonRates)
    (hv : alookup cfg v = some vc)
    (hs : seasonLoop vc.periods ts.month = some s)
    (hsr : alookup vc.seasons s = some sr)
    (hn : ∀ en ∈ dayEntries sr ts, is_hour_in_range ts.hour en.hours = false) :
    get_rate cfg v ts = .ok 0
    ∧ get_rate_type cfg v ts = .ok "off_peak"
    ∧ get_solar_rate cfg v ts = .ok none := by
  refine ⟨?_, ?_, ?_⟩ <;>
    simp only [get_rate, get_rate_type, get_solar_rate, get_season, hv, hs, hsr,
      rateLoop_no_match _ _ hn, rtLoop_no_match _ _ hn, solarLoop_no_match _ _ hn]

/-- Witness for C9: `cfgDay` covers only hours 9–17, so a 20:00 query gets
rate `0`, label `'off_peak'`, and no solar rate. -/
theorem c9_no_match_fallbacks_witness :
    get_rate cfgDay "v" tsEve = .ok 0
    ∧ get_rate_type cfgDay "v" tsEve = .ok "off_peak"
    ∧ get_solar_rate cfgDay "v" tsEve = .ok none :=
  c9_no_match_fallbacks cfgDay "v" tsEve vcDay "all" srDay (by decide) (by decide)
    (by decide) (by decide)

/-- C10: when some configured entry's hour ranges contain the hour, the
three queries all select the same entry — the first matching one in
configured order — so rate, bucket label and solar rate come from a single
rate-type entry. -/
theorem c10_queries_agree (cfg : Config) (v : String) (ts : DT)
    (vc : VendorConfig) (s : String) (sr : SeasonRates) (en : RateEntry)
    (hv : alookup cfg v = some vc)
    (hs : seasonLoop vc.periods ts.month = some s)
    (hsr : alookup vc.seasons s = some sr)
    (hf : (dayEntries sr ts).find? (fun x => is_hour_in_range ts.hour x.hours) = some en) :
    get_rate cfg v ts = .ok en.rate
    ∧ get_rate_type cfg v ts = .ok en.name
    ∧ get_solar_rate cfg v ts = .ok en.solar_rate := by
  refine ⟨?_, ?_, ?_⟩ <;>
    simp only [get_rate, get_rate_type, get_solar_rate, get_season, hv, hs, hsr,
      rateLoop_find _ _ _ hf, rtLoop_find _ _ _ hf, solarLoop_find _ _ _ hf]

/-- Witness for C10: at 10:00 under `cfgW` all three queries answer from the
single matching entry `entAll`. -/
theorem c10_queries_agree_witness :
    get_rate cfgW "v" tsMorn = .ok entAll.rate
    ∧ get_rate_type cfgW "v" tsMorn = .ok entAll.name
    ∧ get_solar_rate cfgW "v" tsMorn = .ok entAll.solar_rate :=
  c10_queries_agree cfgW "v" tsMorn vcW "all" srW entAll (by decide) (by decide)
    (by decide) (by decide)

/-- C8: when no season of the vendor's periods map claims the timestamp's
month, the rate, rate-type and solar-rate queries all fail with the config
lookup error (`KeyError`, the source's realization of `ConfigNotFound`) and
the failure propagates to the caller; and `get_supply_charge` fails the same
way when the vendor is absent from the configuration. -/
theorem c8_config_not_found (cfg : Config) (v w : String) (ts : DT) (vc : VendorConfig)
    (h1 : alookup cfg v = some vc)
    (h2 : ∀ p ∈ vc.periods, ts.month ∉ p.2)
    (h3 : alookup cfg w = none) :
    get_rate cfg v ts = .exc .keyError
    ∧ get_rate_type cfg v ts = .exc .keyError
    ∧ get_solar_rate cfg v ts = .exc .keyError
    ∧ get_supply_charge cfg w = .exc .keyError := by
  have hsl := seasonLoop_eq_none vc.periods ts.month h2
  refine ⟨?_, ?_, ?_, ?_⟩ <;>
    simp only [get_rate, get_rate_type, get_solar_rate, get_supply_charge, get_season,
      h1, h3, hsl]

/-- Witness for C8: `cfgJan`'s only season claims January, so a February
query fails, and the unknown vendor `"b"` has no supply charge. -/
theorem c8_config_not_found_witness :
    get_rate cfgJan "a" tsFeb = .exc .keyError
    ∧ get_rate_type cfgJan "a" tsFeb = .exc .keyError
    ∧ get_solar_rate cfgJan "a" tsFeb = .exc .keyError
    ∧ get_supply_charge cfgJan "b" = .exc .keyError :=
  c8_config_not_found cfgJan "a" "b" tsFeb vcJan (by decide) (by decide) (by decide)

/-- C1 (code bug): with a tariff whose matching entry has no `solar_rate`,
a `Solar` reading makes `calculate_solar_feedin` — and the solar branch of
`calculate_detailed_breakdown` — evaluate `value * None`, which raises
`TypeError` and aborts the aggregation, instead of contributing zero credit
as the claim states. -/
theorem c1_absent_solar_rate_raises :
    calculate_solar_feedin cfgNoSolar dfW dayW "v" = .exc .typeError
    ∧ calculate_detailed_breakdown cfgNoSolar dfW dayW dayW "v" = .exc .typeError := by
  decide

/-!
## Merge-engine lemmas
-/

/-- A successful fixed-format parse returns the instant the cell denotes. -/
theorem parseCell_some {c : Cell} {dt : DT} (h : parseCell c = some dt) : dt = cellDT c := by
  cases c with
  | ts v => cases h; rfl
  | s v =>
    obtain ⟨fmt, d⟩ := v
    cases fmt with
    | dmy => cases h; rfl
    | iso => cases h

/-- Parsing a stored row's date columns preserves the reading it denotes
and its identity key. -/
theorem internRow_some {r r2 : FRow} (h : internRow r = some r2) :
    toMeter r2 = toMeter r ∧ rowKey r2 = rowKey r := by
  unfold internRow at h
  cases hs : parseCell r.startDate with
  | none => rw [hs] at h; cases h
  | some a =>
    cases he : parseCell r.endDate with
    | none => rw [hs, he] at h; cases h
    | some b =>
      rw [hs, he] at h
      cases h
      have ha := parseCell_some hs
      have hb := parseCell_some he
      subst ha hb
      exact ⟨rfl, rfl⟩

/-- Reading the stored file preserves, rowwise, the denoted readings and
the identity keys. -/
theorem parseRows_maps {rows ex : List FRow} (h : parseRows rows = some ex) :
    ex.map toMeter = rows.map toMeter ∧ ex.map rowKey = rows.map rowKey := by
  induction rows generalizing ex with
  | nil => cases h; exact ⟨rfl, rfl⟩
  | cons r rest ih =>
    unfold parseRows at h
    cases hi : internRow r with
    | none => rw [hi] at h; cases h
    | some r2 =>
      cases hp : parseRows rest with
      | none => rw [hi, hp] at h; cases h
      | some l =>
        rw [hi, hp] at h
        cases h
        obtain ⟨hm, hk⟩ := internRow_some hi
        obtain ⟨hms, hks⟩ := ih hp
        simp only [List.map, hm, hk, hms, hks, true_and]

/-- A successful `StartDate` parse of the incoming batch pairs every row
with the instant its `StartDate` denotes. -/
theorem newStartDts_eq {nd : List FRow} {pairs : List (FRow × DT)}
    (h : newStartDts nd = some pairs) :
    pairs = nd.map (fun n => (n, cellDT n.startDate)) := by
  induction nd generalizing pairs with
  | nil => cases h; rfl
  | cons r rest ih =>
    unfold newStartDts at h
    cases hs : parseCell r.startDate with
    | none => rw [hs] at h; cases h
    | some a =>
      cases hp : newStartDts rest with
      | none => rw [hs, hp] at h; cases h
      | some l =>
        rw [hs, hp] at h
        cases h
        rw [ih hp, parseCell_some hs]
        rfl

/-- Serializing a row with `to_csv` preserves the reading it denotes and
its identity key (only the textual date format changes). -/
theorem writeRow_pres (r : FRow) : toMeter (writeRow r) = toMeter r ∧ rowKey (writeRow r) = rowKey r := by
  obtain ⟨nmi, reg, rt, sd, ed, v, q⟩ := r
  cases sd <;> cases ed <;> exact ⟨rfl, rfl⟩

/-- Inserting into a list is a permutation of consing. -/
theorem insertLE_perm {α : Type} (le : α → α → Bool) (x : α) (l : List α) :
    List.Perm (insertLE le x l) (x :: l) := by
  induction l with
  | nil => exact List.Perm.refl _
  | cons y ys ih =>
    simp only [insertLE]
    split
    · exact List.Perm.refl _
    · exact List.Perm.trans (List.Perm.cons y ih) (List.Perm.swap x y ys)

/-- Insertion sort permutes its input. -/
theorem isortLE_perm {α : Type} (le : α → α → Bool) (l : List α) :
    List.Perm (isortLE le l) l := by
  induction l with
  | nil => exact List.Perm.refl _
  | cons x xs ih =>
    exact List.Perm.trans (insertLE_perm le x (isortLE le xs)) (List.Perm.cons x ih)

/-- `memS` is boolean list membership. -/
theorem memS_iff (s : String) (l : List String) : memS s l = true ↔ s ∈ l := by
  induction l with
  | nil => simp [memS]
  | cons x xs ih =>
    simp only [memS, List.mem_cons]
    split
    · simp_all
    · rw [ih]
      constructor
      · exact Or.inr
      · rintro (hx | hx)
        · simp_all
        · exact hx

/-- Projecting the filtered key-annotated pairs back to rows equals
filtering the rows by the same key test. -/
theorem filter_pairs_fst (nd : List FRow) (p : FRow × DT → Bool) :
    (((nd.map (fun n => (n, cellDT n.startDate))).filter p).map Prod.fst)
      = nd.filter (fun n => p (n, cellDT n.startDate)) := by
  induction nd with
  | nil => rfl
  | cons a t ih =>
    simp only [List.map, List.filter]
    cases hp : p (a, cellDT a.startDate)
    · exact ih
    · simp only [List.map, ih]

/-- Characterization of a successful `_append_to_csv` run on an existing
store: the resulting file's rows are, up to the sort's permutation and the
semantics-preserving re-serialization, the stored rows followed by exactly
the incoming rows whose identity key was not already stored. -/
theorem appendToCsv_ok_perm (rows nd : List FRow)
    (h : (appendToCsv (some rows) nd none).ok = true) :
    ∃ out, (appendToCsv (some rows) nd none).file = some out
      ∧ List.Perm (out.map toMeter)
          ((rows.map toMeter) ++ ((specFresh rows nd).map toMeter))
      ∧ List.Perm (out.map rowKey)
          ((rows.map rowKey) ++ ((specFresh rows nd).map rowKey)) := by
  cases hpr : parseRows rows with
  | none =>
    simp only [appendToCsv, hpr] at h
    exact absurd h Bool.false_ne_true
  | some existing =>
    cases hnd : newStartDts nd with
    | none =>
      simp only [appendToCsv, hpr, hnd] at h
      exact absurd h Bool.false_ne_true
    | some pairs =>
      obtain ⟨hexm, hexk⟩ := parseRows_maps hpr
      have hpairs := newStartDts_eq hnd
      subst hpairs
      have hfst : (dedupFresh existing (nd.map fun n => (n, cellDT n.startDate))).map Prod.fst
          = specFresh rows nd := by
        unfold dedupFresh specFresh
        rw [filter_pairs_fst, hexk]
        rfl
      by_cases hemp :
          (dedupFresh existing (nd.map fun n => (n, cellDT n.startDate))).isEmpty = true
      · have hnil := List.isEmpty_iff.mp hemp
        have hsf : specFresh rows nd = [] := by rw [← hfst, hnil]; rfl
        refine ⟨rows, ?_, ?_, ?_⟩ <;>
          simp only [appendToCsv, hpr, hnd, hemp, if_true, hsf, List.map_nil,
            List.append_nil] <;>
          exact List.Perm.refl _
      · simp only [appendToCsv, hpr, hnd, hemp, if_false, Bool.false_eq_true] at h ⊢
        unfold sortAndWrite at h ⊢
        by_cases hall :
            ((existing ++ (dedupFresh existing (nd.map fun n => (n, cellDT n.startDate))).map
              Prod.fst).all fun r => (parseCell r.startDate).isSome) = true
        · simp only [hall, if_true]
          refine ⟨_, rfl, ?_, ?_⟩
          · have hwm : ∀ l : List FRow, (l.map writeRow).map toMeter = l.map toMeter := by
              intro l
              rw [List.map_map]
              exact List.map_congr_left fun r _ => (writeRow_pres r).1
            rw [hwm]
            refine List.Perm.trans (List.Perm.map toMeter (isortLE_perm rowLE _)) ?_
            rw [List.map_append, hexm, hfst]
          · have hwk : ∀ l : List FRow, (l.map writeRow).map rowKey = l.map rowKey := by
              intro l
              rw [List.map_map]
              exact List.map_congr_left fun r _ => (writeRow_pres r).2
            rw [hwk]
            refine List.Perm.trans (List.Perm.map rowKey (isortLE_perm rowLE _)) ?_
            rw [List.map_append, hexk, hfst]
        · simp only [hall, if_false, Bool.false_eq_true] at h

/-- C3: every incoming reading whose identity key
`(nmi, registerCode, startTime-to-minute)` is already stored is dropped,
and the stored readings — including their values — pass through the merge
unchanged: the merged file denotes exactly the stored readings plus the
incoming readings with fresh keys. -/
theorem c3_existing_wins (rows nd : List FRow)
    (h : (appendToCsv (some rows) nd none).ok = true) :
    ∃ out, (appendToCsv (some rows) nd none).file = some out
      ∧ (↑(out.map toMeter) : Multiset MeterReading)
          = ↑(rows.map toMeter) + ↑((specFresh rows nd).map toMeter) := by
  obtain ⟨out, hf, hp, _⟩ := appendToCsv_ok_perm rows nd h
  refine ⟨out, hf, ?_⟩
  rw [Multiset.coe_add]
  exact Multiset.coe_eq_coe.mpr hp

/-- Witness for C3: merging a batch holding a duplicate-key reading with a
changed value (`rowNdup`) and a fresh reading (`rowN`) into a store holding
`rowE`. -/
theorem c3_existing_wins_witness :
    (appendToCsv (some [rowE]) [rowNdup, rowN] none).ok = true
    ∧ ∃ out, (appendToCsv (some [rowE]) [rowNdup, rowN] none).file = some out
        ∧ (↑(out.map toMeter) : Multiset MeterReading)
            = ↑([rowE].map toMeter) + ↑((specFresh [rowE] [rowNdup, rowN]).map toMeter) :=
  ⟨by decide, c3_existing_wins [rowE] [rowNdup, rowN] (by decide)⟩

/-- C4 is false as stated: a batch that itself contains two readings with
the same identity key is persisted with both rows, so the stored file
violates key uniqueness (first merge into a missing store shown here). -/
theorem c4_key_uniqueness_counterexample :
    (appendToCsv none [rowNdup, rowNdupB] none).ok = true
    ∧ (appendToCsv none [rowNdup, rowNdupB] none).file = some [rowNdup, rowNdupB]
    ∧ ¬ (([rowNdup, rowNdupB] : List FRow).map rowKey).Nodup := by
  refine ⟨by decide, by decide, by decide⟩

/-- C4 (amended): after every successful merge — against an existing store
or a first merge into an empty or missing store — key uniqueness holds
provided the already-stored rows (if any) and the incoming batch each have
pairwise-distinct identity keys; the merge removes incoming keys that are
already stored but performs no deduplication inside the batch itself. -/
theorem c4_amended_key_uniqueness (st : Option (List FRow)) (nd : List FRow)
    (h1 : ∀ rows, st = some rows → (rows.map rowKey).Nodup)
    (h2 : (nd.map rowKey).Nodup)
    (h : (appendToCsv st nd none).ok = true) :
    ∃ out, (appendToCsv st nd none).file = some out
      ∧ (out.map rowKey).Nodup := by
  cases st with
  | some rows =>
    obtain ⟨out, hf, _, hk⟩ := appendToCsv_ok_perm rows nd h
    refine ⟨out, hf, hk.symm.nodup ?_⟩
    refine List.Nodup.append (h1 rows rfl) ?_ ?_
    · exact List.Nodup.sublist (List.Sublist.map rowKey (List.filter_sublist nd)) h2
    · intro a ha hb
      obtain ⟨n, hn, hkey⟩ := List.mem_map.mp hb
      have hp := List.of_mem_filter hn
      rw [Bool.not_eq_true', ← Bool.not_eq_true] at hp
      rw [memS_iff] at hp
      exact hp (hkey ▸ ha)
  | none =>
    by_cases hall : (nd.all fun r => (parseCell r.startDate).isSome) = true
    · refine ⟨(isortLE rowLE nd).map writeRow, ?_, ?_⟩
      · simp only [appendToCsv, sortAndWrite, hall, if_true]
      · have hwk : ((isortLE rowLE nd).map writeRow).map rowKey
            = (isortLE rowLE nd).map rowKey := by
          rw [List.map_map]
          exact List.map_congr_left fun r _ => (writeRow_pres r).2
        rw [hwk]
        exact (List.Perm.map rowKey (isortLE_perm rowLE nd)).symm.nodup h2
    · simp only [appendToCsv, sortAndWrite, hall, if_false, Bool.false_eq_true] at h

/-- Witness for C4 (amended) on both branches: a first merge of the
duplicate-free batch `[rowE, rowN]` into a missing store, and a merge of
the duplicate-free batch `[rowNdup, rowN]` into the store `[rowE]`. -/
theorem c4_amended_key_uniqueness_witness :
    (∃ out, (appendToCsv none [rowE, rowN] none).file = some out
        ∧ (out.map rowKey).Nodup)
    ∧ (∃ out, (appendToCsv (some [rowE]) [rowNdup, rowN] none).file = some out
        ∧ (out.map rowKey).Nodup) :=
  ⟨c4_amended_key_uniqueness none [rowE, rowN]
      (fun rows hr => nomatch hr) (by decide) (by decide),
   c4_amended_key_uniqueness (some [rowE]) [rowNdup, rowN]
      (fun rows hr => by cases hr; decide) (by decide) (by decide)⟩

/-- C2 is false as stated: with the in-place `to_csv` write failing at the
start, the canonical file afterwards is an empty table — neither the prior
persisted state (`[rowE]`) nor the full combined dataset the successful
write would have produced — so a partial file is observable to a subsequent
read, although the failure itself is reported. -/
theorem c2_atomicity_counterexample :
    (appendToCsv (some [rowE]) [rowN] (some 0)).ok = false
    ∧ (appendToCsv (some [rowE]) [rowN] (some 0)).file = some []
    ∧ (appendToCsv (some [rowE]) [rowN] (some 0)).file ≠ some [rowE]
    ∧ (appendToCsv (some [rowE]) [rowN] (some 0)).file
        ≠ (appendToCsv (some [rowE]) [rowN] none).file := by
  refine ⟨by decide, by decide, by decide, by decide⟩

/-- C2 (amended): a failing write is always reported to the caller, but the
write is performed in place on the canonical file, so after a reported
failure the file holds either the prior state (when the failure precedes
the write) or a prefix of the full combined, sorted dataset (a partial
file); atomicity is not guaranteed.  Runs that report success without
writing leave the file unchanged. -/
theorem c2_amended_failure_reported (st : Option (List FRow)) (nd : List FRow) (k : Nat) :
    ((appendToCsv st nd (some k)).ok = true ∧ (appendToCsv st nd (some k)).file = st)
    ∨ ((appendToCsv st nd (some k)).ok = false
        ∧ ((appendToCsv st nd (some k)).file = st
            ∨ ∃ full a, appendToCsv st nd none = ⟨some full, true, a⟩
                ∧ (appendToCsv st nd (some k)).file = some (full.take k))) := by
  cases st with
  | none =>
    by_cases hall : (nd.all fun r => (parseCell r.startDate).isSome) = true
    · right
      simp only [appendToCsv, sortAndWrite, hall, if_true]
      exact ⟨by trivial, Or.inr ⟨_, _, by trivial, by trivial⟩⟩
    · right
      simp only [appendToCsv, sortAndWrite, hall, if_false, Bool.false_eq_true]
      exact ⟨by trivial, Or.inl (by trivial)⟩
  | some rows =>
    cases hpr : parseRows rows with
    | none =>
      right
      simp only [appendToCsv, hpr]
      exact ⟨by trivial, Or.inl (by trivial)⟩
    | some existing =>
      cases hnd : newStartDts nd with
      | none =>
        right
        simp only [appendToCsv, hpr, hnd]
        exact ⟨by trivial, Or.inl (by trivial)⟩
      | some pairs =>
        by_cases hemp : (dedupFresh existing pairs).isEmpty = true
        · left
          simp only [appendToCsv, hpr, hnd, hemp, if_true]
          exact ⟨by trivial, by trivial⟩
        · by_cases hall : ((existing ++ (dedupFresh existing pairs).map Prod.fst).all
              fun r => (parseCell r.startDate).isSome) = true
          · right
            simp only [appendToCsv, hpr, hnd, hemp, if_false, sortAndWrite, hall, if_true,
              Bool.false_eq_true]
            exact ⟨by trivial, Or.inr ⟨_, _, by trivial, by trivial⟩⟩
          · right
            simp only [appendToCsv, hpr, hnd, hemp, if_false, sortAndWrite, hall,
              Bool.false_eq_true]
            exact ⟨by trivial, Or.inl (by trivial)⟩

/-- Witness for C2 (amended): instantiated at the counterexample's inputs
(store `[rowE]`, batch `[rowN]`, write failing immediately). -/
theorem c2_amended_failure_reported_witness :
    ((appendToCsv (some [rowE]) [rowN] (some 0)).ok = true
        ∧ (appendToCsv (some [rowE]) [rowN] (some 0)).file = some [rowE])
    ∨ ((appendToCsv (some [rowE]) [rowN] (some 0)).ok = false
        ∧ ((appendToCsv (some [rowE]) [rowN] (some 0)).file = some [rowE]
            ∨ ∃ full a, appendToCsv (some [rowE]) [rowN] none = ⟨some full, true, a⟩
                ∧ (appendToCsv (some [rowE]) [rowN] (some 0)).file = some (full.take 0))) :=
  c2_amended_failure_reported (some [rowE]) [rowN] 0

/-- C6 (code bug): merging the batch `[rowN]` into a store that already
held `rowE` re-serializes the stored row's dates in pandas' ISO format; the
second merge of the identical batch then fails the fixed-format
`pd.to_datetime` parse and returns failure (file unchanged, nothing
accepted) instead of succeeding with every incoming reading rejected as a
duplicate. -/
theorem c6_second_merge_parse_failure :
    mergeRun1.ok = true ∧ mergeRun2.ok = false ∧ mergeRun2.file = mergeRun1.file
    ∧ mergeRun2.accepted = 0 := by
  refine ⟨by decide, by decide, by decide, by decide⟩

/-!
## Billing-aggregation lemmas
-/

/-- Relation between one day's breakdown row loop and the two row loops of
`calculate_cost` / `calculate_solar_feedin`: when the breakdown loop
succeeds, the cost loop adds exactly the growth of the summed bucket costs,
the solar loop adds exactly the growth of the solar credit, and the summed
bucket kWh grows by the `Usage` kWh of the rows. -/
theorem bdRows_rel (cfg : Config) (v : String) (rows : List Reading) (bd bd2 : BD)
    (h : bdRows cfg v rows bd = .ok bd2) :
    (∀ a : ℚ, calcCostRows cfg v rows a = .ok (a + (bdCost bd2 - bdCost bd)))
    ∧ (∀ s : ℚ, calcSolarRows cfg v rows s = .ok (s + (bd2.solar.credit - bd.solar.credit)))
    ∧ bdKwh bd2 = bdKwh bd + usageKwhRows rows := by
  induction rows generalizing bd with
  | nil =>
    cases h
    refine ⟨fun a => ?_, fun s => ?_, ?_⟩
    · simp [calcCostRows]
    · simp [calcSolarRows]
    · simp [usageKwhRows]
  | cons r rest ih =>
    cases hb : bdRow cfg v r bd with
    | exc e =>
      simp only [bdRows, hb] at h
      cases h
    | ok bd1 =>
      simp only [bdRows, hb] at h
      obtain ⟨ihc, ihs, ihk⟩ := ih bd1 h
      by_cases hu : r.rateTypeDescription = "Usage"
      · cases hr : get_rate cfg v r.startDate with
        | exc e =>
          simp only [bdRow, if_pos hu, hr] at hb
          cases hb
        | ok rate =>
          cases hrt : get_rate_type cfg v r.startDate with
          | exc e =>
            simp only [bdRow, if_pos hu, hr, hrt] at hb
            cases hb
          | ok rt =>
            simp only [bdRow, if_pos hu, hr, hrt] at hb
            have step : ∃ bd1e, bd1 = bd1e
                ∧ bdCost bd1 = bdCost bd + r.value * rate
                ∧ bd1.solar.credit = bd.solar.credit
                ∧ bdKwh bd1 = bdKwh bd + r.value := by
              by_cases h1 : rt = "peak"
              · rw [if_pos h1] at hb
                cases hb
                exact ⟨_, rfl, by unfold bdCost; dsimp only; ring,
                  rfl, by unfold bdKwh; dsimp only; ring⟩
              · rw [if_neg h1] at hb
                by_cases h2 : rt = "off_peak"
                · rw [if_pos h2] at hb
                  cases hb
                  exact ⟨_, rfl, by unfold bdCost; dsimp only; ring,
                    rfl, by unfold bdKwh; dsimp only; ring⟩
                · rw [if_neg h2] at hb
                  by_cases h3 : rt = "shoulder"
                  · rw [if_pos h3] at hb
                    cases hb
                    exact ⟨_, rfl, by unfold bdCost; dsimp only; ring,
                      rfl, by unfold bdKwh; dsimp only; ring⟩
                  · rw [if_neg h3] at hb
                    cases hb
            obtain ⟨_, _, hcost, hcred, hkwh⟩ := step
            have hns : ¬ r.rateTypeDescription = "Solar" := by
              rw [hu]; decide
            refine ⟨fun a => ?_, fun s => ?_, ?_⟩
            · simp only [calcCostRows, if_pos hu, hr]
              rw [ihc (a + r.value * rate)]
              congr 1
              rw [hcost]
              ring
            · simp only [calcSolarRows, if_neg hns]
              rw [ihs s, hcred]
            · rw [ihk, hkwh, usageKwhRows, if_pos hu]
              ring
      · by_cases hsol : r.rateTypeDescription = "Solar"
        · cases hsr : get_solar_rate cfg v r.startDate with
          | exc e =>
            simp only [bdRow, if_neg hu, if_pos hsol, hsr] at hb
            cases hb
          | ok osr =>
            cases osr with
            | none =>
              simp only [bdRow, if_neg hu, if_pos hsol, hsr] at hb
              cases hb
            | some q =>
              simp only [bdRow, if_neg hu, if_pos hsol, hsr] at hb
              cases hb
              refine ⟨fun a => ?_, fun s => ?_, ?_⟩
              · simp only [calcCostRows, if_neg hu]
                rw [ihc a]
                congr 1
              · simp only [calcSolarRows, if_pos hsol, hsr]
                rw [ihs (s + r.value * q)]
                congr 1
                dsimp only
                ring
              · rw [ihk, usageKwhRows, if_neg hu]
                unfold bdKwh
                dsimp only
                ring
        · simp only [bdRow, if_neg hu, if_neg hsol] at hb
          cases hb
          refine ⟨fun a => ?_, fun s => ?_, ?_⟩
          · simp only [calcCostRows, if_neg hu]
            exact ihc a
          · simp only [calcSolarRows, if_neg hsol]
            exact ihs s
          · rw [ihk, usageKwhRows, if_neg hu]
            ring

/-- Relation between the two day loops: when the breakdown day loop
succeeds, the cost-range day loop succeeds with the matching totals, and
the summed bucket kWh grows by the total `Usage` kWh of the days. -/
theorem bdDays_rel (cfg : Config) (v : String) (df : List Reading) (days : List Date)
    (bd : BD) (supply : ℚ) (n : Nat) (bdF : BD) (supF : ℚ) (nF : Nat)
    (h : bdDays cfg v df days bd supply n = .ok (bdF, supF, nF)) :
    (∀ c s : ℚ, crDays cfg v df days c s supply n
        = .ok (c + (bdCost bdF - bdCost bd), s + (bdF.solar.credit - bd.solar.credit), supF, nF))
    ∧ bdKwh bdF = bdKwh bd + sumUsageDays df days := by
  induction days generalizing bd supply n with
  | nil =>
    cases h
    refine ⟨fun c s => ?_, ?_⟩
    · simp [crDays]
    · simp [sumUsageDays]
  | cons d ds ih =>
    cases hsc : get_supply_charge cfg v with
    | exc e =>
      simp only [bdDays, hsc] at h
      cases h
    | ok sc =>
      cases hbr : bdRows cfg v (readingsOn df d) bd with
      | exc e =>
        simp only [bdDays, hsc, hbr] at h
        cases h
      | ok bd1 =>
        simp only [bdDays, hsc, hbr] at h
        obtain ⟨ihc, ihk⟩ := ih bd1 (supply + sc) (n + 1) h
        obtain ⟨hc, hs, hk⟩ := bdRows_rel cfg v _ bd bd1 hbr
        have hcc : calculate_cost cfg df d v = .ok (bdCost bd1 - bdCost bd) := by
          unfold calculate_cost
          rw [hc 0, zero_add]
        have hcs : calculate_solar_feedin cfg df d v
            = .ok (bd1.solar.credit - bd.solar.credit) := by
          unfold calculate_solar_feedin
          rw [hs 0, zero_add]
        refine ⟨fun c s => ?_, ?_⟩
        · simp only [crDays, hcc, hcs, hsc]
          rw [ihc (c + (bdCost bd1 - bdCost bd)) (s + (bd1.solar.credit - bd.solar.credit))]
          congr 2
          · ring_nf
          · ring_nf
        · rw [ihk, hk, sumUsageDays]
          ring

/-- C5: whenever `calculate_detailed_breakdown` and `calculate_cost_range`
both succeed on the same inputs, the peak/off_peak/shoulder buckets
partition the `Usage` kWh of the range exactly, and the two net-cost
formulas agree: `(breakdown costs + supply charges) - solar credit` equals
`usage cost - solar credit + supply charges`.  (Success of the breakdown is
exactly the well-formedness premiss: every resolved rate-type label lands
in one of the three buckets, so each `Usage` reading is counted once.) -/
theorem c5_breakdown_partition_net (cfg : Config) (df : List Reading) (s e : Date)
    (v : String) (b : Breakdown) (c : CostRange)
    (hb : calculate_detailed_breakdown cfg df s e v = .ok b)
    (hc : calculate_cost_range cfg df s e v = .ok c) :
    b.breakdown.peak.kwh + b.breakdown.off_peak.kwh + b.breakdown.shoulder.kwh
        = totalUsageKwh df s e
    ∧ b.netCost = c.netCost := by
  cases hbd : bdDays cfg v df (dateRange s e) ⟨⟨0, 0⟩, ⟨0, 0⟩, ⟨0, 0⟩, ⟨0, 0⟩⟩ 0 0 with
  | exc er =>
    simp only [calculate_detailed_breakdown, hbd] at hb
    cases hb
  | ok t =>
    obtain ⟨bdF, supF, nF⟩ := t
    simp only [calculate_detailed_breakdown, hbd] at hb
    obtain ⟨hcr, hkwh⟩ := bdDays_rel cfg v df (dateRange s e) _ 0 0 bdF supF nF hbd
    simp only [calculate_cost_range, hcr 0 0] at hc
    cases hb
    cases hc
    constructor
    · have : bdKwh bdF = totalUsageKwh df s e := by
        rw [hkwh]
        unfold totalUsageKwh bdKwh
        dsimp only
        ring
      unfold bdKwh at this
      dsimp only
      exact this
    · dsimp only
      unfold bdCost
      dsimp only
      ring

/-- Evaluation of `calculate_detailed_breakdown` on the witness inputs. -/
theorem bW_eval : calculate_detailed_breakdown cfgW dfW dayW dayW "v" = .ok bW := by
  norm_num [calculate_detailed_breakdown, bdDays, bdRows, bdRow, readingsOn, dateRange,
    dateList, daysFromCivil, dayW, dfW, rdU, rdS, cfgW, vcW, srW, entAll, bW, get_rate,
    get_solar_rate, get_rate_type, get_supply_charge, get_season, seasonLoop, dayEntries,
    pyWeekday, rateLoop, solarLoop, rtLoop, is_hour_in_range, alookup, DT.dateOf,
    List.filter, periodsAll,
    (by decide : ("Solar" : String) ≠ "Usage"), (by decide : ("Usage" : String) ≠ "Solar"),
    (by decide : ("peak" : String) ≠ "off_peak"), (by decide : ("peak" : String) ≠ "shoulder")]

/-- Evaluation of `calculate_cost_range` on the witness inputs. -/
theorem cW_eval : calculate_cost_range cfgW dfW dayW dayW "v" = .ok cW := by
  norm_num [calculate_cost_range, crDays, calculate_cost, calcCostRows, calculate_solar_feedin,
    calcSolarRows, readingsOn, dateRange, dateList, daysFromCivil, dayW, dfW, rdU, rdS, cfgW,
    vcW, srW, entAll, cW, get_rate, get_solar_rate, get_supply_charge, get_season, seasonLoop,
    dayEntries, pyWeekday, rateLoop, solarLoop, rtLoop, is_hour_in_range, alookup, DT.dateOf,
    List.filter, periodsAll,
    (by decide : ("Solar" : String) ≠ "Usage"), (by decide : ("Usage" : String) ≠ "Solar")]

/-- Witness for C5: the well-formed configuration `cfgW` and the two-reading
dataset `dfW` on the single day `dayW`. -/
theorem c5_breakdown_partition_net_witness :
    calculate_detailed_breakdown cfgW dfW dayW dayW "v" = .ok bW
    ∧ calculate_cost_range cfgW dfW dayW dayW "v" = .ok cW
    ∧ (bW.breakdown.peak.kwh + bW.breakdown.off_peak.kwh + bW.breakdown.shoulder.kwh
          = totalUsageKwh dfW dayW dayW
        ∧ bW.netCost = cW.netCost) :=
  ⟨bW_eval, cW_eval,
   c5_breakdown_partition_net cfgW dfW dayW dayW "v" bW cW bW_eval cW_eval⟩
